import Mathlib

/-!
Shallow embedding of the decision-and-execution engine of the
solana-trading-bot repository (src/trading.rs, src/service.rs,
src/jupiter.rs, src/firestore.rs).

Modelling conventions:
- Monetary quantities that the source keeps as rust_decimal `Decimal`
  or `f64` are modelled as exact rationals; `Decimal::from_f64_retain`
  is the identity under this modelling, and the f64 literal `0.01` is
  the rational 1/100, `dec!(1.01)` is 101/100.
- The external world of `check_and_trade` (Jupiter quotes, RPC balance
  reads, the USDC mint pubkey parse, the Firestore trend query and the
  swap submission) is modelled by an `Env` record that gives the
  outcome of each call, consumed in the program order of the source.
  Firestore writes (`store_price_history`, `store_trading_session`,
  `store_profit_tracking`) only have their errors logged in the source
  and never touch `TradingState`, so they are not part of `Env`.
- Fallible operations return `Except String`.
-/

/-- `Position` enum from src/trading.rs. -/
inductive Position where
  | SOL
  | USDC
deriving DecidableEq

/-- `PriceTrend` record from src/firestore.rs (timestamps as integers,
trend labels as the strings "up" / "down" / "stable" the source uses).
`should_make_trade` receives but ignores this value. -/
structure PriceTrend where
  timestamp : Int
  price_1h_ago : Option ℚ
  price_24h_ago : Option ℚ
  price_7d_ago : Option ℚ
  trend_1h : Option String
  trend_24h : Option String
  trend_7d : Option String
  volatility_1h : Option ℚ
  volatility_24h : Option ℚ

/-- `TradingState` from src/trading.rs, without the `firestore` handle
(the presence of a database and its answers live in `Env`). -/
structure TradingState where
  position : Position
  last_sol_price : Option ℚ
  last_usdc_price : Option ℚ
  last_trade_price : Option ℚ
  total_profit_usdc : ℚ
  total_trades : Int
  winning_trades : Int
  losing_trades : Int
deriving DecidableEq

/-- `validate_price_data` from src/firestore.rs lines 700-710. -/
def validate_price_data (price : ℚ) : Except String Unit :=
  if price ≤ 0 then Except.error "Invalid price: must be greater than zero"
  else if price > 1000000 then Except.error "Invalid price: exceeds maximum allowed value"
  else Except.ok ()

/-- `should_make_trade` from src/trading.rs lines 407-428: the trend
argument is unused (`_trend` in the source), both position arms run the
same threshold test against `last_trade_price`. -/
def should_make_trade (position : Position) (_trend : PriceTrend)
    (sol_price : ℚ) (_usdc_price : ℚ) (state : TradingState) : Bool :=
  match position with
  | Position.USDC =>
    (state.last_trade_price.map fun last_price =>
      decide (sol_price ≥ last_price * (101/100))).getD false
  | Position.SOL =>
    (state.last_trade_price.map fun last_price =>
      decide (sol_price ≥ last_price * (101/100))).getD false

/-- `should_make_trade_simple` from src/trading.rs lines 431-451. -/
def should_make_trade_simple (position : Position)
    (sol_price : ℚ) (_usdc_price : ℚ) (state : TradingState) : Bool :=
  match position with
  | Position.USDC =>
    (state.last_trade_price.map fun last =>
      decide (sol_price ≥ last * (101/100))).getD false
  | Position.SOL =>
    (state.last_trade_price.map fun last =>
      decide (sol_price ≥ last * (101/100))).getD false

/-- src/trading.rs line 222 (USDC → SOL leg):
`let effective_price = if sol_gained > 0.0 { usdc_spent / sol_gained } else { 0.0 };`. -/
def effective_price_usdc_to_sol (sol_gained usdc_spent : ℚ) : ℚ :=
  if sol_gained > 0 then usdc_spent / sol_gained else 0

/-- src/trading.rs line 297 (SOL → USDC leg):
`let effective_price = if sol_spent > 0.0 { usdc_gained / sol_spent } else { 0.0 };`. -/
def effective_price_sol_to_usdc (usdc_gained sol_spent : ℚ) : ℚ :=
  if sol_spent > 0 then usdc_gained / sol_spent else 0

/-- `get_price` from src/jupiter.rs lines 338-360, after the quote has
arrived and both amount strings have parsed: rejects a zero input
amount, otherwise returns `out_amount / in_amount` (a ratio of
smallest-unit amounts). -/
def get_price (in_amount out_amount : ℚ) : Except String ℚ :=
  if in_amount = 0 then Except.error "Invalid input amount: 0"
  else Except.ok (out_amount / in_amount)

/-- `get_current_prices` from src/trading.rs lines 376-404, over the two
quote responses' parsed in/out amounts (the source requests the SOL
quote with 1_000_000_000 lamports in and the USDC quote with 1_000_000
micro-USDC in, then divides the first ratio by 1_000_000.0 and the
second by 1_000_000_000.0). -/
def get_current_prices (sol_quote_in sol_quote_out usdc_quote_in usdc_quote_out : ℚ) :
    Except String (ℚ × ℚ) :=
  match get_price sol_quote_in sol_quote_out with
  | Except.error e => Except.error e
  | Except.ok sol_price =>
    match get_price usdc_quote_in usdc_quote_out with
    | Except.error e => Except.error e
    | Except.ok usdc_price =>
      Except.ok (sol_price / 1000000, usdc_price / 1000000000)

/-- Outcomes of the external calls made by `check_and_trade`
(src/trading.rs lines 131-374), in program order. `hasDb` is whether
`state.firestore` is `Some`; `price_trend` is consumed only when it is. -/
structure Env where
  hasDb : Bool
  prices : Except String (ℚ × ℚ)
  sol_balance_before : Except String ℚ
  usdc_mint_parse : Except String Unit
  usdc_balance_before : Except String ℚ
  price_trend : Except String PriceTrend
  swap : Except String Unit
  sol_balance_after : Except String ℚ
  usdc_balance_after : Except String ℚ

/-- `check_and_trade` from src/trading.rs lines 131-374.  Each
`match … | Except.error e => (Except.error e, state)` is a `?` in the
source; the Firestore stores between the profit computation and the
final field assignments only log their errors and are omitted.  The
two-step state update (`state1` then `state2`) mirrors the source
exactly: `+=` into `total_profit_usdc` and the win/loss buckets at
lines 224-238 / 300-315, then the final
`state.total_profit_usdc = profit_loss.unwrap_or(dec!(0))` overwrite
and the position flip at lines 267-268 / 367-368.  `total_trades` is
never assigned anywhere in the source function. -/
def check_and_trade (env : Env) (state : TradingState) :
    Except String (Option ℚ) × TradingState :=
  match env.prices with
  | Except.error e => (Except.error e, state)
  | Except.ok (sol_price_in_usdc, usdc_price_in_sol) =>
    match validate_price_data sol_price_in_usdc with
    | Except.error e => (Except.error e, state)
    | Except.ok _ =>
      match validate_price_data usdc_price_in_sol with
      | Except.error e => (Except.error e, state)
      | Except.ok _ =>
        match env.sol_balance_before with
        | Except.error e => (Except.error e, state)
        | Except.ok sol_balance_before =>
          match env.usdc_mint_parse with
          | Except.error e => (Except.error e, state)
          | Except.ok _ =>
            match env.usdc_balance_before with
            | Except.error e => (Except.error e, state)
            | Except.ok usdc_balance_before =>
              let should_trade : Bool :=
                if env.hasDb then
                  match env.price_trend with
                  | Except.ok trend =>
                    should_make_trade state.position trend sol_price_in_usdc
                      usdc_price_in_sol state
                  | Except.error _ =>
                    should_make_trade_simple state.position sol_price_in_usdc
                      usdc_price_in_sol state
                else
                  should_make_trade_simple state.position sol_price_in_usdc
                    usdc_price_in_sol state
              if !should_trade then (Except.ok none, state)
              else
                match state.position with
                | Position.USDC =>
                  if usdc_balance_before > 0 then
                    match env.swap with
                    | Except.error e => (Except.error e, state)
                    | Except.ok _ =>
                      match env.sol_balance_after with
                      | Except.error e => (Except.error e, state)
                      | Except.ok sol_balance_after =>
                        match env.usdc_balance_after with
                        | Except.error e => (Except.error e, state)
                        | Except.ok usdc_balance_after =>
                          let sol_gained := sol_balance_after - sol_balance_before
                          let usdc_spent := usdc_balance_before - usdc_balance_after
                          let effective_price :=
                            effective_price_usdc_to_sol sol_gained usdc_spent
                          match state.last_sol_price with
                          | some last_price =>
                            let profit_per_sol := effective_price - last_price
                            let total_profit := profit_per_sol * sol_gained
                            let state1 : TradingState :=
                              { state with
                                total_profit_usdc := state.total_profit_usdc + total_profit
                                winning_trades :=
                                  if total_profit > 0 then state.winning_trades + 1
                                  else state.winning_trades
                                losing_trades :=
                                  if total_profit < 0 then state.losing_trades + 1
                                  else state.losing_trades }
                            let state2 : TradingState :=
                              { state1 with
                                total_profit_usdc := total_profit
                                position := Position.SOL }
                            (Except.ok (some total_profit), state2)
                          | none =>
                            (Except.ok none,
                              { state with
                                total_profit_usdc := 0
                                position := Position.SOL })
                  else (Except.ok none, state)
                | Position.SOL =>
                  let sol_to_swap := sol_balance_before - 1/100
                  if sol_to_swap > 0 then
                    match env.swap with
                    | Except.error e => (Except.error e, state)
                    | Except.ok _ =>
                      match env.sol_balance_after with
                      | Except.error e => (Except.error e, state)
                      | Except.ok sol_balance_after =>
                        match env.usdc_balance_after with
                        | Except.error e => (Except.error e, state)
                        | Except.ok usdc_balance_after =>
                          let usdc_gained := usdc_balance_after - usdc_balance_before
                          let sol_spent := sol_balance_before - sol_balance_after
                          let _effective_price :=
                            effective_price_sol_to_usdc usdc_gained sol_spent
                          match state.last_sol_price with
                          | some last_price =>
                            let profit_per_sol := sol_price_in_usdc - last_price
                            let total_profit := profit_per_sol * sol_spent
                            let state1 : TradingState :=
                              { state with
                                total_profit_usdc := state.total_profit_usdc + total_profit
                                winning_trades :=
                                  if total_profit > 0 then state.winning_trades + 1
                                  else state.winning_trades
                                losing_trades :=
                                  if total_profit < 0 then state.losing_trades + 1
                                  else state.losing_trades }
                            let state2 : TradingState :=
                              { state1 with
                                total_profit_usdc := total_profit
                                position := Position.USDC }
                            (Except.ok (some total_profit), state2)
                          | none =>
                            (Except.ok none,
                              { state with
                                total_profit_usdc := 0
                                position := Position.USDC })
                  else (Except.ok none, state)

/-- Outcome of one invocation of the operation passed to the retry
executor: success with a value, an error, or a per-attempt timeout
(src/service.rs lines 22-50 treat the latter two identically except for
the log message). -/
inductive AttemptOutcome (T : Type) where
  | ok : T → AttemptOutcome T
  | err : AttemptOutcome T
  | timeout : AttemptOutcome T

/-- Observable trace of one `retry_as_exponential_back_off` run:
the final result (`none` = the `Err` return), how many times the
operation was invoked, and the sleep durations (ms) in order. -/
structure ExecTrace (T : Type) where
  result : Option T
  calls : Nat
  sleeps_ms : List Nat
deriving DecidableEq

/-- Loop body of `retry_as_exponential_back_off` (src/service.rs lines
21-83): `fuel` is the number of loop iterations left
(`max_retries - attempt`), `attempt` the current index, `delay` the
current `retry_delay` in ms.  `none` models falling through the loop to
the `unreachable!` at line 85 (only possible when `max_retries = 0`). -/
def retryLoop {T : Type} (op : Nat → AttemptOutcome T) (maxRetries : Nat) :
    Nat → Nat → Nat → Option (ExecTrace T)
  | 0, _, _ => none
  | fuel + 1, attempt, delay =>
    match op attempt with
    | AttemptOutcome.ok v => some ⟨some v, 1, []⟩
    | AttemptOutcome.err =>
      if attempt < maxRetries - 1 then
        match retryLoop op maxRetries fuel (attempt + 1) (delay * 2) with
        | some t => some ⟨t.result, t.calls + 1, delay :: t.sleeps_ms⟩
        | none => none
      else some ⟨none, 1, []⟩
    | AttemptOutcome.timeout =>
      if attempt < maxRetries - 1 then
        match retryLoop op maxRetries fuel (attempt + 1) (delay * 2) with
        | some t => some ⟨t.result, t.calls + 1, delay :: t.sleeps_ms⟩
        | none => none
      else some ⟨none, 1, []⟩

/-- `retry_as_exponential_back_off` from src/service.rs lines 7-86:
start the loop at attempt 0 with `retry_delay = initial_delay_ms`. -/
def retry_as_exponential_back_off {T : Type} (op : Nat → AttemptOutcome T)
    (max_retries initial_delay_ms : Nat) : Option (ExecTrace T) :=
  retryLoop op max_retries max_retries 0 initial_delay_ms

/-- An all-successful environment with no Firestore handle, used for
concrete runs: quoted prices `(p, u)`, balances before `(sb, ub)` and
after `(sa, ua)`. -/
def mkEnv (p u sb ub sa ua : ℚ) : Env :=
  { hasDb := false
    prices := Except.ok (p, u)
    sol_balance_before := Except.ok sb
    usdc_mint_parse := Except.ok ()
    usdc_balance_before := Except.ok ub
    price_trend := Except.error "no trend data"
    swap := Except.ok ()
    sol_balance_after := Except.ok sa
    usdc_balance_after := Except.ok ua }

/-- Concrete run: holding SOL, quoted SOL price 110 USDC, selling the
whole 10 SOL balance (minus fee buffer) for 1050 USDC. -/
def envA : Env :=
  mkEnv 110 (1/100) 10 0 0 1050

/-- Concrete starting state for the run in `envA`: holding SOL, profit
baseline `last_sol_price = 90`, decision baseline
`last_trade_price = 100`, cumulative profit 10 USDC, all counters 0. -/
def stateA : TradingState :=
  { position := Position.SOL
    last_sol_price := some 90
    last_usdc_price := none
    last_trade_price := some 100
    total_profit_usdc := 10
    total_trades := 0
    winning_trades := 0
    losing_trades := 0 }

/-- A state with no prior trade price (first-ever cycle). -/
def stateB : TradingState :=
  { position := Position.USDC
    last_sol_price := none
    last_usdc_price := none
    last_trade_price := none
    total_profit_usdc := 0
    total_trades := 0
    winning_trades := 0
    losing_trades := 0 }

/-- An empty trend snapshot (every horizon absent). -/
def trendB : PriceTrend :=
  { timestamp := 0
    price_1h_ago := none
    price_24h_ago := none
    price_7d_ago := none
    trend_1h := none
    trend_24h := none
    trend_7d := none
    volatility_1h := none
    volatility_24h := none }

/-- Case analysis of `check_and_trade`: the three price fields and
`total_trades` are never written, and every error return leaves the
state exactly as it was at entry. -/
lemma check_and_trade_shape (env : Env) (s : TradingState)
    (r : Except String (Option ℚ)) (s' : TradingState)
    (h : check_and_trade env s = (r, s')) :
    s'.last_sol_price = s.last_sol_price ∧
    s'.last_usdc_price = s.last_usdc_price ∧
    s'.last_trade_price = s.last_trade_price ∧
    s'.total_trades = s.total_trades ∧
    (∀ e, r = Except.error e → s' = s) := by
  unfold check_and_trade at h
  simp only [] at h
  repeat' split at h
  all_goals
    injection h with h1 h2
  all_goals subst h1
  all_goals subst h2
  all_goals exact ⟨rfl, rfl, rfl, rfl, by intro e he; first | rfl | exact absurd he (by simp)⟩

/-- Peeling one doubling step off an exponential sleep schedule. -/
lemma sleeps_cons (d n : Nat) :
    (List.range (n + 1)).map (fun i => d * 2 ^ i) =
      d :: (List.range n).map (fun i => d * 2 * 2 ^ i) := by
  rw [List.range_succ_eq_map, List.map_cons, List.map_map]
  refine congrArg₂ List.cons (by simp) ?_
  apply List.map_congr_left
  intro i _
  show d * 2 ^ (i + 1) = d * 2 * 2 ^ i
  ring

/-- One-step unfolding of `retryLoop`. -/
lemma retryLoop_succ {T : Type} (op : Nat → AttemptOutcome T)
    (m fuel attempt delay : Nat) :
    retryLoop op m (fuel + 1) attempt delay =
      match op attempt with
      | AttemptOutcome.ok v => some ⟨some v, 1, []⟩
      | AttemptOutcome.err =>
        if attempt < m - 1 then
          match retryLoop op m fuel (attempt + 1) (delay * 2) with
          | some t => some ⟨t.result, t.calls + 1, delay :: t.sleeps_ms⟩
          | none => none
        else some ⟨none, 1, []⟩
      | AttemptOutcome.timeout =>
        if attempt < m - 1 then
          match retryLoop op m fuel (attempt + 1) (delay * 2) with
          | some t => some ⟨t.result, t.calls + 1, delay :: t.sleeps_ms⟩
          | none => none
        else some ⟨none, 1, []⟩ := rfl

/-- If every attempt fails (error or timeout), the loop runs all its
remaining iterations, sleeping a doubling delay between consecutive
ones, and ends with the `Err` return. -/
lemma retryLoop_allFail {T : Type} (op : Nat → AttemptOutcome T) (m : Nat)
    (hop : ∀ i v, op i ≠ AttemptOutcome.ok v) :
    ∀ fuel attempt delay, fuel ≠ 0 → attempt + fuel = m →
      retryLoop op m fuel attempt delay =
        some ⟨none, fuel, (List.range (fuel - 1)).map fun i => delay * 2 ^ i⟩ := by
  intro fuel
  induction fuel with
  | zero => intro _ _ h0 _; exact absurd rfl h0
  | succ n ih =>
    intro attempt delay _ hm
    cases n with
    | zero =>
      have hlt : ¬ attempt < m - 1 := by omega
      cases hop' : op attempt with
      | ok v => exact absurd hop' (hop attempt v)
      | err => rw [retryLoop_succ, hop', if_neg hlt]; simp
      | timeout => rw [retryLoop_succ, hop', if_neg hlt]; simp
    | succ k =>
      have hlt : attempt < m - 1 := by omega
      have ihx := ih (attempt + 1) (delay * 2) (by omega) (by omega)
      cases hop' : op attempt with
      | ok v => exact absurd hop' (hop attempt v)
      | err => rw [retryLoop_succ, hop', if_pos hlt, ihx]; simp [sleeps_cons]
      | timeout => rw [retryLoop_succ, hop', if_pos hlt, ihx]; simp [sleeps_cons]

/-- If the first success is at attempt `k` (within budget), the loop
stops there: `k - attempt + 1` invocations and `k - attempt` sleeps. -/
lemma retryLoop_firstSuccess {T : Type} (op : Nat → AttemptOutcome T) (m : Nat) :
    ∀ fuel attempt delay k v, attempt + fuel = m → attempt ≤ k → k < m →
      op k = AttemptOutcome.ok v →
      (∀ i, attempt ≤ i → i < k → ∀ w, op i ≠ AttemptOutcome.ok w) →
      retryLoop op m fuel attempt delay =
        some ⟨some v, k - attempt + 1, (List.range (k - attempt)).map fun i => delay * 2 ^ i⟩ := by
  intro fuel
  induction fuel with
  | zero =>
    intro attempt delay k v hm hak hkm _ _
    exact absurd hkm (by omega)
  | succ n ih =>
    intro attempt delay k v hm hak hkm hok hfail
    rcases eq_or_lt_of_le hak with heq | hlt
    · subst heq
      rw [retryLoop_succ, hok]
      simp
    · have h1 : attempt < m - 1 := by omega
      have ihx := ih (attempt + 1) (delay * 2) k v (by omega) (by omega) hkm hok
        (fun i hi1 hi2 w => hfail i (by omega) hi2 w)
      have hka : k - attempt = (k - (attempt + 1)) + 1 := by omega
      cases hcase : op attempt with
      | ok w => exact absurd hcase (hfail attempt le_rfl hlt w)
      | err =>
        rw [retryLoop_succ, hcase, if_pos h1, ihx, hka]
        simp [sleeps_cons]
      | timeout =>
        rw [retryLoop_succ, hcase, if_pos h1, ihx, hka]
        simp [sleeps_cons]

/-- C1: the claimed invariant `winning_trades + losing_trades ≤
total_trades` is NOT preserved by `check_and_trade`: starting from a
state satisfying it (all counters 0), a single settled winning trade
increments `winning_trades` while `total_trades` is never written, so
the invariant fails after the settle.  (Concrete run: holding 10 SOL,
baseline 90, quoted price 110, proceeds 1050 USDC, profit 200 > 0.) -/
theorem c1_invariant_broken :
    stateA.winning_trades + stateA.losing_trades ≤ stateA.total_trades ∧
    (check_and_trade envA stateA).1 = Except.ok (some 200) ∧
    ¬ ((check_and_trade envA stateA).2.winning_trades +
        (check_and_trade envA stateA).2.losing_trades ≤
        (check_and_trade envA stateA).2.total_trades) := by
  refine ⟨by norm_num [stateA], ?_, ?_⟩ <;>
    norm_num [check_and_trade, envA, mkEnv, stateA, validate_price_data,
      should_make_trade_simple, effective_price_sol_to_usdc,
      decide_eq_false_iff_not, decide_eq_true_eq]

/-- C2: a settle of an executed trade with strictly positive profit
increments `winning_trades` by one but leaves `total_trades`
unchanged — the source never assigns `state.total_trades` (it only
writes `state.total_trades + 1` into the persisted ProfitTracking
record at src/trading.rs line 355), refuting the claim that every
settle increments `total_trades` by exactly one. -/
theorem c2_total_trades_not_incremented :
    (check_and_trade envA stateA).1 = Except.ok (some 200) ∧
    (check_and_trade envA stateA).2.winning_trades = stateA.winning_trades + 1 ∧
    (check_and_trade envA stateA).2.total_trades = stateA.total_trades := by
  refine ⟨?_, ?_, ?_⟩ <;>
    norm_num [check_and_trade, envA, mkEnv, stateA, validate_price_data,
      should_make_trade_simple, effective_price_sol_to_usdc,
      decide_eq_false_iff_not, decide_eq_true_eq]

/-- C3: cumulative profit does NOT accumulate across
`check_and_trade`: starting from cumulative profit 10 and settling a
trade with profit 200, the final `total_profit_usdc` is 200 (this
trade's profit alone), not 10 + 200 — the `+=` at src/trading.rs line
303 is overwritten by `state.total_profit_usdc =
profit_loss.unwrap_or(dec!(0))` at line 367. -/
theorem c3_cumulative_profit_overwritten :
    stateA.total_profit_usdc = 10 ∧
    (check_and_trade envA stateA).1 = Except.ok (some 200) ∧
    (check_and_trade envA stateA).2.total_profit_usdc = 200 ∧
    (200 : ℚ) ≠ 10 + 200 := by
  refine ⟨by norm_num [stateA], ?_, ?_, by norm_num⟩ <;>
    norm_num [check_and_trade, envA, mkEnv, stateA, validate_price_data,
      should_make_trade_simple, effective_price_sol_to_usdc,
      decide_eq_false_iff_not, decide_eq_true_eq]

/-- C4 counterexample: with `last_trade_price = 100`, realized price
1050/10 = 105 and 10 SOL moved, the claimed profit
`(realized - last_trade_price) * amount = 50` differs from the profit
200 the code actually returns (the code uses the quoted price 110 and
the `last_sol_price` baseline 90 in this branch). -/
theorem c4_profit_formula_counterexample :
    stateA.last_trade_price = some 100 ∧
    (check_and_trade envA stateA).1 = Except.ok (some 200) ∧
    effective_price_sol_to_usdc (1050 - 0) (10 - 0) = 105 ∧
    ((105 - 100) * (10 - 0) : ℚ) = 50 ∧
    ((50 : ℚ) ≠ 200) := by
  refine ⟨rfl, ?_, by norm_num [effective_price_sol_to_usdc], by norm_num, by norm_num⟩
  norm_num [check_and_trade, envA, mkEnv, stateA, validate_price_data,
    should_make_trade_simple, effective_price_sol_to_usdc,
    decide_eq_false_iff_not, decide_eq_true_eq]

/-- C4 amended: when a trade executes with baseline `last_sol_price =
lsp` recorded, the settled profit is: closing out of SOL,
`(quoted current SOL price - lsp) * (SOL spent)` — the QUOTED price,
not the realized one; entering SOL,
`(realized price - lsp) * (SOL gained)` with the same (not reversed)
sign convention, where the realized price comes from the balance
deltas.  The decision baseline `last_trade_price = ltp` is used only
for the 1% firing test, never in the profit. -/
theorem c4_amended_profit_formula (p u sb ub sa ua ltp lsp : ℚ) (s : TradingState)
    (hp0 : 0 < p) (hp1 : p ≤ 1000000) (hu0 : 0 < u) (hu1 : u ≤ 1000000)
    (hltp : s.last_trade_price = some ltp) (hlsp : s.last_sol_price = some lsp)
    (hfire : ltp * (101/100) ≤ p) :
    (s.position = Position.SOL → 1/100 < sb →
      (check_and_trade (mkEnv p u sb ub sa ua) s).1 =
        Except.ok (some ((p - lsp) * (sb - sa)))) ∧
    (s.position = Position.USDC → 0 < ub →
      (check_and_trade (mkEnv p u sb ub sa ua) s).1 =
        Except.ok (some ((effective_price_usdc_to_sol (sa - sb) (ub - ua) - lsp) *
          (sa - sb)))) := by
  have hv1 : validate_price_data p = Except.ok () := by
    rw [validate_price_data, if_neg (not_le.mpr hp0), if_neg (not_lt.mpr hp1)]
  have hv2 : validate_price_data u = Except.ok () := by
    rw [validate_price_data, if_neg (not_le.mpr hu0), if_neg (not_lt.mpr hu1)]
  have hst : ∀ pos, should_make_trade_simple pos p u s = true := by
    intro pos
    cases pos <;> simp [should_make_trade_simple, hltp, ge_iff_le, hfire]
  constructor
  · intro hpos hsb
    have hsb' : (100 : ℚ)⁻¹ < sb := by rw [inv_eq_one_div]; linarith
    simp [check_and_trade, mkEnv, hv1, hv2, hst, hpos, hlsp, hsb']
  · intro hpos hub
    simp [check_and_trade, mkEnv, hv1, hv2, hst, hpos, hlsp, hub]

/-- C4 amended, witnessed at the concrete `envA`-style run:
profit = (110 - 90) * (10 - 0) = 200. -/
theorem c4_amended_witness :
    (check_and_trade (mkEnv 110 (1/100) 10 0 0 1050) stateA).1 =
      Except.ok (some ((110 - 90) * (10 - 0))) :=
  (c4_amended_profit_formula 110 (1/100) 10 0 0 1050 100 90 stateA
    (by norm_num) (by norm_num) (by norm_num) (by norm_num) rfl rfl
    (by norm_num)).1 rfl (by norm_num)

/-- C5: the trade decision fires iff `last_trade_price` is present and
the current SOL price is at least 1.01 times it; it is false whenever
`last_trade_price` is `none`; it does not depend on the held position
(nor on the USDC price or the trend data), and the trend-based variant
equals the simple fallback. -/
theorem c5_trade_decision (pos pos' : Position) (tr : PriceTrend)
    (p u u' : ℚ) (s : TradingState) :
    should_make_trade pos tr p u s = should_make_trade_simple pos p u s ∧
    should_make_trade_simple pos p u s = should_make_trade_simple pos' p u' s ∧
    (should_make_trade_simple pos p u s = true ↔
      ∃ last, s.last_trade_price = some last ∧ last * (101/100) ≤ p) ∧
    (s.last_trade_price = none → should_make_trade_simple pos p u s = false) := by
  cases pos <;> cases pos' <;> cases hl : s.last_trade_price <;>
    simp [should_make_trade, should_make_trade_simple, hl, ge_iff_le]

/-- C5 witness: with no prior trade price the decision is false even
at price 100. -/
theorem c5_trade_decision_witness :
    should_make_trade_simple Position.USDC 100 0 stateB = false :=
  (c5_trade_decision Position.USDC Position.USDC trendB 100 0 0 stateB).2.2.2 rfl

/-- C6: with `max_attempts ≥ 1`, an always-failing operation (errors
and per-attempt timeouts alike each consume one attempt) is invoked
exactly `max_attempts` times with sleeps `d, 2d, 4d, …` between
consecutive attempts before the error return; and if the first success
is at attempt `k`, its value is returned immediately after `k + 1`
invocations. -/
theorem c6_retry_exponential_backoff {T : Type} (op : Nat → AttemptOutcome T)
    (m d : Nat) (hm : 1 ≤ m) :
    ((∀ i v, op i ≠ AttemptOutcome.ok v) →
      retry_as_exponential_back_off op m d =
        some ⟨none, m, (List.range (m - 1)).map fun i => d * 2 ^ i⟩) ∧
    (∀ k v, k < m → op k = AttemptOutcome.ok v →
      (∀ i w, i < k → op i ≠ AttemptOutcome.ok w) →
      retry_as_exponential_back_off op m d =
        some ⟨some v, k + 1, (List.range k).map fun i => d * 2 ^ i⟩) := by
  constructor
  · intro hop
    simpa [retry_as_exponential_back_off] using
      retryLoop_allFail op m hop m 0 d (by omega) (by omega)
  · intro k v hkm hok hfail
    simpa [retry_as_exponential_back_off] using
      retryLoop_firstSuccess op m m 0 d k v (by omega) (Nat.zero_le k) hkm hok
        (fun i _ hik w => hfail i w hik)

/-- C6 witness: three always-failing attempts at initial delay 500 ms
give the trace (no result, 3 calls, sleeps [500, 1000]); an immediate
success returns after one call with no sleeps. -/
theorem c6_retry_witness :
    retry_as_exponential_back_off (fun _ => AttemptOutcome.err : Nat → AttemptOutcome Nat) 3 500 =
      some ⟨none, 3, [500, 1000]⟩ ∧
    retry_as_exponential_back_off
      (fun i => if i = 0 then AttemptOutcome.ok 7 else AttemptOutcome.err) 3 500 =
      some ⟨some 7, 1, []⟩ := by
  constructor
  · have h := (c6_retry_exponential_backoff
      (fun _ => AttemptOutcome.err : Nat → AttemptOutcome Nat) 3 500 (by norm_num)).1
      (fun i v => by simp)
    simpa [List.range_succ] using h
  · have h := (c6_retry_exponential_backoff
      (fun i => if i = 0 then AttemptOutcome.ok 7 else AttemptOutcome.err) 3 500
      (by norm_num)).2 0 7 (by norm_num) (by simp) (fun i w hik => by omega)
    simpa using h

/-- C7: whenever `check_and_trade` returns an error, the trading state
is exactly the entry state — every state mutation in the source occurs
after the last fallible operation of its branch. -/
theorem c7_error_leaves_state_unchanged (env : Env) (s : TradingState) (e : String)
    (h : (check_and_trade env s).1 = Except.error e) :
    (check_and_trade env s).2 = s :=
  (check_and_trade_shape env s (check_and_trade env s).1 (check_and_trade env s).2
    rfl).2.2.2.2 e h

/-- C7 witness: a failing price fetch ends the cycle with the state
untouched. -/
theorem c7_error_witness :
    (check_and_trade { envA with prices := Except.error "rpc down" } stateA).1 =
      Except.error "rpc down" ∧
    (check_and_trade { envA with prices := Except.error "rpc down" } stateA).2 = stateA := by
  constructor
  · simp [check_and_trade, envA, mkEnv]
  · exact c7_error_leaves_state_unchanged _ _ "rpc down" (by simp [check_and_trade, envA, mkEnv])

/-- C8: the price decimal adjustment is wrong in the code: for a
SOL→USDC quote of 1 SOL (1,000,000,000 lamports) returning 150 USDC
(150,000,000 micro-USDC), the code reports (out/in) / 10^6 =
3/20,000,000 instead of the whole-unit price (out/in) × 10^(9-6) = 150
the claim states; symmetrically the USDC→SOL price is divided by 10^9
instead of multiplied by 10^(6-9). -/
theorem c8_price_scale :
    get_current_prices 1000000000 150000000 1000000 7000000 =
      Except.ok (3/20000000, 7/1000000000) ∧
    ((3/20000000 : ℚ) ≠ (150000000/1000000000) * 10 ^ (9 - 6)) ∧
    ((7/1000000000 : ℚ) ≠ (7000000/1000000) / 10 ^ (9 - 6)) := by
  refine ⟨by norm_num [get_current_prices, get_price], by norm_num, by norm_num⟩

/-- C9 counterexample: in the USDC→SOL leg the guard is on the amount
RECEIVED (sol_gained), not on the amount spent: with sol_gained = 2
and usdc_spent = -10 (spent ≤ 0), the realized price is -10/2 = -5,
not the 0 the claim requires; nor does it equal received/spent =
2/(-10). -/
theorem c9_realized_price_counterexample :
    effective_price_usdc_to_sol 2 (-10) = -5 ∧
    ((-10 : ℚ) ≤ 0) ∧ ((-5 : ℚ) ≠ 0) ∧ ((2 : ℚ) / (-10) ≠ -5) := by
  norm_num [effective_price_usdc_to_sol]

/-- C9 amended: each leg's realized price divides by that leg's SOL
delta and only when it is strictly positive, reporting 0 otherwise, so
no division by zero ever occurs: in the USDC→SOL leg the price is
USDC spent / SOL gained guarded on SOL gained; in the SOL→USDC leg it
is USDC gained / SOL spent guarded on SOL spent (the amount spent). -/
theorem c9_amended_realized_price (sol_gained usdc_spent usdc_gained sol_spent : ℚ) :
    (sol_gained ≤ 0 → effective_price_usdc_to_sol sol_gained usdc_spent = 0) ∧
    (0 < sol_gained →
      effective_price_usdc_to_sol sol_gained usdc_spent * sol_gained = usdc_spent) ∧
    (sol_spent ≤ 0 → effective_price_sol_to_usdc usdc_gained sol_spent = 0) ∧
    (0 < sol_spent →
      effective_price_sol_to_usdc usdc_gained sol_spent * sol_spent = usdc_gained) := by
  refine ⟨fun h => ?_, fun h => ?_, fun h => ?_, fun h => ?_⟩
  · rw [effective_price_usdc_to_sol, if_neg (not_lt.mpr h)]
  · rw [effective_price_usdc_to_sol, if_pos h, div_mul_cancel₀ _ (ne_of_gt h)]
  · rw [effective_price_sol_to_usdc, if_neg (not_lt.mpr h)]
  · rw [effective_price_sol_to_usdc, if_pos h, div_mul_cancel₀ _ (ne_of_gt h)]

/-- C9 amended witness: nonpositive SOL delta gives price 0; positive
SOL spent gives price × spent = gained. -/
theorem c9_amended_witness :
    effective_price_usdc_to_sol (-2) 5 = 0 ∧
    effective_price_sol_to_usdc 6 2 * 2 = 6 :=
  ⟨(c9_amended_realized_price (-2) 5 6 2).1 (by norm_num),
   (c9_amended_realized_price (-2) 5 6 2).2.2.2 (by norm_num)⟩

/-- C10: `check_and_trade` never writes `last_trade_price`,
`last_sol_price` or `last_usdc_price` (nor `total_trades`): after any
run, successful swap included, those fields equal the values the state
had at entry (the values loaded at rehydration). -/
theorem c10_price_fields_frame (env : Env) (s : TradingState) :
    (check_and_trade env s).2.last_trade_price = s.last_trade_price ∧
    (check_and_trade env s).2.last_sol_price = s.last_sol_price ∧
    (check_and_trade env s).2.last_usdc_price = s.last_usdc_price ∧
    (check_and_trade env s).2.total_trades = s.total_trades := by
  obtain ⟨h1, h2, h3, h4, _⟩ := check_and_trade_shape env s (check_and_trade env s).1
    (check_and_trade env s).2 rfl
  exact ⟨h3, h1, h2, h4⟩
